import Mathlib

/-!
Verification of the Faraday persistence/event/API excerpt.

Shallow embedding of:
- `src/faraday/server/events.py` (severities histogram maintenance,
  change-notification queue, workspace-consistency hooks);
- `src/server/api/base.py` (generic view object lookup, uniqueness
  validation, create path);
- `src/faraday/migrations/versions/b31fa447f00c_add_analytics_monthly_graphs_model.py`
  (vulnerability_hit_count schema migration).

Machine integers of the program are modelled as `Int`/`Nat`; fallible code
returns `Except`; database tables are lists of row structures; the
in-process notification queue is a list of messages.
-/

deriving instance DecidableEq for Except

namespace Faraday

/-- Modelled from the spec: the severity value constants
`Vulnerability.SEVERITY_MEDIUM` / `SEVERITY_HIGH` / `SEVERITY_CRITICAL`
live in `faraday/server/models.py`, which is not part of the sources;
the spec (section 3 and the glossary) gives their string values. -/
def SEVERITY_MEDIUM : String := "medium"

/-- Modelled from the spec: see `SEVERITY_MEDIUM`. -/
def SEVERITY_HIGH : String := "high"

/-- Modelled from the spec: see `SEVERITY_MEDIUM`. -/
def SEVERITY_CRITICAL : String := "critical"

/-- Modelled from the spec: `SeveritiesHistogram.SEVERITIES_ALLOWED`
is declared in `faraday/server/models.py` (not in the sources); the spec
(section 3) states it is exactly the set of medium, high and critical. -/
def SEVERITIES_ALLOWED : List String := [SEVERITY_MEDIUM, SEVERITY_HIGH, SEVERITY_CRITICAL]

/-- Modelled from the spec: status value constants of
`faraday/server/models.py` (not in the sources); the spec glossary lists
the lifecycle states open, re-opened, closed, risk-accepted. -/
def STATUS_OPEN : String := "open"

/-- Modelled from the spec: see `STATUS_OPEN`. -/
def STATUS_RE_OPENED : String := "re-opened"

/-- Modelled from the spec: see `STATUS_OPEN`. -/
def STATUS_CLOSED : String := "closed"

/-- Modelled from the spec: see `STATUS_OPEN`. -/
def STATUS_RISK_ACCEPTED : String := "risk-accepted"

/-- An attribute change history as produced by SQLAlchemy `get_history`
(or by the dummy history class of `get_history_from_context_values`):
three lists of values for added, unchanged and deleted. -/
structure AttrHist (α : Type) where
  added : List α
  unchanged : List α
  deleted : List α
deriving DecidableEq, Repr

/-- Truthiness of a SQLAlchemy `History`: falsy exactly when all three
tuples are empty (`History.__bool__` compares against `HISTORY_BLANK`). -/
def AttrHist.isBlank {α : Type} (h : AttrHist α) : Bool :=
  h.added.isEmpty && h.unchanged.isEmpty && h.deleted.isEmpty

/-- Python falsiness of an optional history argument: `None` or a blank
history (used by the `if not status_history or ...` guard). -/
def histFalsy {α : Type} (h : Option (AttrHist α)) : Bool :=
  match h with
  | none => true
  | some a => a.isBlank

/-- Exceptions the update-path histogram code can raise: subscripting an
empty history tuple (`IndexError`) and reading the local `severity`
before any branch assigned it (`NameError`). -/
inductive HistErr where
  | indexError
  | nameError
deriving DecidableEq, Repr

/-- One row of the `severities_histogram` table. -/
structure HistRow where
  rid : Nat
  workspace_id : Nat
  hdate : Nat
  medium : Int
  high : Int
  critical : Int
  confirmed : Int
deriving DecidableEq, Repr

/-- The `severities_histogram` table plus the id sequence. -/
structure HistDB where
  rows : List HistRow
  nextId : Nat
deriving DecidableEq, Repr

/-- Predicate of the row lookup in `_create_or_update_histogram`:
`SeveritiesHistogram.date == date.today()` and matching workspace. -/
def hist_row_matches (today ws : Nat) (r : HistRow) : Bool :=
  r.hdate == today && r.workspace_id == ws

/-- The UPDATE statement of `_create_or_update_histogram`: add the deltas
to the row whose id is `rid0`, leave every other row unchanged. -/
def apply_hist_deltas (medium high critical confirmed : Int) (rid0 : Nat)
    (x : HistRow) : HistRow :=
  if x.rid == rid0 then
    { x with medium := x.medium + medium, high := x.high + high,
             critical := x.critical + critical, confirmed := x.confirmed + confirmed }
  else x

/-- Embedding of `_create_or_update_histogram` (events.py, lines 109-128):
a `None` workspace id is a logged no-op; otherwise the first row for
(today, workspace) is updated by adding the deltas, and when no such row
exists a new row seeded with the deltas is inserted. -/
def create_or_update_histogram (db : HistDB) (today : Nat)
    (workspace_id : Option Nat) (medium high critical confirmed : Int) : HistDB :=
  match workspace_id with
  | none => db
  | some ws =>
    match db.rows.find? (hist_row_matches today ws) with
    | none =>
      { rows := db.rows ++ [⟨db.nextId, ws, today, medium, high, critical, confirmed⟩],
        nextId := db.nextId + 1 }
    | some r =>
      { db with rows := db.rows.map (apply_hist_deltas medium high critical confirmed r.rid) }

/-- Embedding of `_dicrease_severities_histogram` (events.py, lines 131-136). -/
def dicrease_severities_histogram (instance_severity : String)
    (medium high critical : Int) : Int × Int × Int :=
  (if instance_severity == SEVERITY_MEDIUM then -1 else medium,
   if instance_severity == SEVERITY_HIGH then -1 else high,
   if instance_severity == SEVERITY_CRITICAL then -1 else critical)

/-- Embedding of `_increase_severities_histogram` (events.py, lines 139-144). -/
def increase_severities_histogram (instance_severity : String)
    (medium high critical : Int) : Int × Int × Int :=
  (if instance_severity == SEVERITY_MEDIUM then 1 else medium,
   if instance_severity == SEVERITY_HIGH then 1 else high,
   if instance_severity == SEVERITY_CRITICAL then 1 else critical)

/-- The attribute snapshot of a `VulnerabilityGeneric` instance, as read
by the histogram hooks. -/
structure VulnRowInst where
  vid : Nat
  workspace_id : Option Nat
  status : String
  severity : String
  confirmed : Bool
deriving DecidableEq, Repr

/-- Embedding of `alter_histogram_on_insert` (events.py, lines 147-157). -/
def alter_histogram_on_insert (db : HistDB) (today : Nat)
    (inst : VulnRowInst) : HistDB :=
  if SEVERITIES_ALLOWED.contains inst.severity then
    let mhc := increase_severities_histogram inst.severity 0 0 0
    create_or_update_histogram db today inst.workspace_id
      mhc.1 mhc.2.1 mhc.2.2 (if inst.confirmed then 1 else 0)
  else db

/-- The three confirmed deltas computed at the top of
`alter_histogram_on_update_general` (events.py, lines 175-190):
`(confirmed_counter, confirmed_counter_on_close, confirmed_counter_on_reopen)`.
`none` models the logged early return when the confirmed history changed
but its deleted or added tuple is empty. -/
def confirmed_counters (ch : AttrHist Bool) : Option (Int × Int × Int) :=
  match ch.unchanged with
  | u :: _ => some (0, if u then -1 else 0, if u then 1 else 0)
  | [] =>
    match ch.deleted, ch.added with
    | [], _ => none
    | _, [] => none
    | d :: _, _ :: _ => if d then some (-1, -1, 0) else some (1, 0, 1)

/-- The status-unchanged branch of `alter_histogram_on_update_general`
(events.py, lines 192-217): `su` is `status_history.unchanged[0]`. -/
def hist_status_unchanged_branch (db : HistDB) (today : Nat)
    (workspace_id : Option Nat) (su : String) (svh : AttrHist String)
    (confirmed_counter : Int) : HistDB :=
  match svh.unchanged with
  | _ :: _ =>
    if confirmed_counter != 0 && (su == STATUS_OPEN || su == STATUS_RE_OPENED) then
      create_or_update_histogram db today workspace_id 0 0 0 confirmed_counter
    else db
  | [] =>
    match svh.deleted, svh.added with
    | [], _ =>
      if confirmed_counter != 0 && (su == STATUS_OPEN || su == STATUS_RE_OPENED) then
        create_or_update_histogram db today workspace_id 0 0 0 confirmed_counter
      else db
    | _ :: _, [] =>
      if confirmed_counter != 0 && (su == STATUS_OPEN || su == STATUS_RE_OPENED) then
        create_or_update_histogram db today workspace_id 0 0 0 confirmed_counter
      else db
    | sd :: _, sa :: _ =>
      let mhc : Int × Int × Int :=
        if SEVERITIES_ALLOWED.contains sd then
          dicrease_severities_histogram sd 0 0 0
        else (0, 0, 0)
      let mhc2 : Int × Int × Int :=
        if SEVERITIES_ALLOWED.contains sa then
          increase_severities_histogram sa mhc.1 mhc.2.1 mhc.2.2
        else mhc
      create_or_update_histogram db today workspace_id
        mhc2.1 mhc2.2.1 mhc2.2.2 confirmed_counter

/-- The close-transition branch of `alter_histogram_on_update_general`
(events.py, lines 221-228): the local `severity` is taken from the
severity history, deleted value overriding unchanged; when both are empty
the Python code raises `NameError` at the membership test. -/
def hist_close_branch (db : HistDB) (today : Nat) (workspace_id : Option Nat)
    (svh : AttrHist String) (cc_on_close : Int) : Except HistErr HistDB :=
  let sev? : Option String :=
    match svh.deleted with
    | d :: _ => some d
    | [] =>
      match svh.unchanged with
      | u :: _ => some u
      | [] => none
  match sev? with
  | none => .error .nameError
  | some sev =>
    if SEVERITIES_ALLOWED.contains sev then
      let mhc := dicrease_severities_histogram sev 0 0 0
      .ok (create_or_update_histogram db today workspace_id
        mhc.1 mhc.2.1 mhc.2.2 cc_on_close)
    else .ok db

/-- The reopen-transition branch of `alter_histogram_on_update_general`
(events.py, lines 231-238): the local `severity` is taken from the
severity history, added value overriding unchanged. -/
def hist_reopen_branch (db : HistDB) (today : Nat) (workspace_id : Option Nat)
    (svh : AttrHist String) (cc_on_reopen : Int) : Except HistErr HistDB :=
  let sev? : Option String :=
    match svh.added with
    | a :: _ => some a
    | [] =>
      match svh.unchanged with
      | u :: _ => some u
      | [] => none
  match sev? with
  | none => .error .nameError
  | some sev =>
    if SEVERITIES_ALLOWED.contains sev then
      let mhc := increase_severities_histogram sev 0 0 0
      .ok (create_or_update_histogram db today workspace_id
        mhc.1 mhc.2.1 mhc.2.2 cc_on_reopen)
    else .ok db

/-- The final `elif confirmed_counter != 0` fallback
(events.py, lines 239-240). -/
def hist_confirmed_fallback (db : HistDB) (today : Nat)
    (workspace_id : Option Nat) (confirmed_counter : Int) : HistDB :=
  if confirmed_counter != 0 then
    create_or_update_histogram db today workspace_id 0 0 0 confirmed_counter
  else db

/-- Embedding of `alter_histogram_on_update_general` (events.py, lines
168-240).  The `elif` chain on the status history subscripts
`status_history.added[0]` and `status_history.deleted[0]` without
guarding against empty tuples, so those accesses are modelled as
`IndexError`, following Python left-to-right short-circuit evaluation. -/
def alter_histogram_on_update_general (db : HistDB) (today : Nat)
    (workspace_id : Option Nat)
    (status_history : Option (AttrHist String))
    (confirmed_history : Option (AttrHist Bool))
    (severity_history : Option (AttrHist String)) : Except HistErr HistDB :=
  if histFalsy status_history || histFalsy confirmed_history
      || histFalsy severity_history then
    .ok db
  else
    match status_history, confirmed_history, severity_history with
    | some sh, some ch, some svh =>
      match confirmed_counters ch with
      | none => .ok db
      | some (confirmed_counter, cc_on_close, cc_on_reopen) =>
        match sh.unchanged with
        | su :: _ =>
          .ok (hist_status_unchanged_branch db today workspace_id su svh confirmed_counter)
        | [] =>
          match sh.added with
          | [] => .error .indexError
          | sa :: _ =>
            if sa == STATUS_CLOSED || sa == STATUS_RISK_ACCEPTED then
              match sh.deleted with
              | [] => .error .indexError
              | sd :: _ =>
                if sd == STATUS_OPEN || sd == STATUS_RE_OPENED then
                  hist_close_branch db today workspace_id svh cc_on_close
                else if (sa == STATUS_OPEN || sa == STATUS_RE_OPENED)
                    && (sd == STATUS_CLOSED || sd == STATUS_RISK_ACCEPTED) then
                  hist_reopen_branch db today workspace_id svh cc_on_reopen
                else
                  .ok (hist_confirmed_fallback db today workspace_id confirmed_counter)
            else if sa == STATUS_OPEN || sa == STATUS_RE_OPENED then
              match sh.deleted with
              | [] => .error .indexError
              | sd :: _ =>
                if sd == STATUS_CLOSED || sd == STATUS_RISK_ACCEPTED then
                  hist_reopen_branch db today workspace_id svh cc_on_reopen
                else
                  .ok (hist_confirmed_fallback db today workspace_id confirmed_counter)
            else
              .ok (hist_confirmed_fallback db today workspace_id confirmed_counter)
    | _, _, _ => .ok db

/-- Embedding of `alter_histogram_on_delete` (events.py, lines 243-252). -/
def alter_histogram_on_delete (db : HistDB) (today : Nat)
    (inst : VulnRowInst) : HistDB :=
  if inst.status == STATUS_OPEN || inst.status == STATUS_RE_OPENED then
    let confirmed : Int := if inst.confirmed then -1 else 0
    if SEVERITIES_ALLOWED.contains inst.severity then
      let mhc := dicrease_severities_histogram inst.severity 0 0 0
      create_or_update_histogram db today inst.workspace_id
        mhc.1 mhc.2.1 mhc.2.2 confirmed
    else db
  else db

/-- The per-row body of `alter_histogram_on_before_compile_delete`
(events.py, lines 261-270), applied to each instance the delete query
matches. -/
def process_delete_row (today : Nat) (db : HistDB) (inst : VulnRowInst) : HistDB :=
  if inst.status == STATUS_OPEN || inst.status == STATUS_RE_OPENED then
    if SEVERITIES_ALLOWED.contains inst.severity then
      let mhc := dicrease_severities_histogram inst.severity 0 0 0
      create_or_update_histogram db today inst.workspace_id
        mhc.1 mhc.2.1 mhc.2.2 (if inst.confirmed then -1 else 0)
    else db
  else db

/-- Embedding of `alter_histogram_on_before_compile_delete` (events.py,
lines 255-270): the delete query matched `matching`, and each matched row
is processed in order. -/
def alter_histogram_on_before_compile_delete (db : HistDB) (today : Nat)
    (matching : List VulnRowInst) : HistDB :=
  matching.foldl (process_delete_row today) db

/-- Embedding of `get_history_from_context_values` (events.py, lines
273-280): `context_value` is `context_values[field]` when the field is
present in the bulk update target values, `none` otherwise. -/
def get_history_from_context_values {α : Type} [BEq α]
    (context_value : Option α) (old_value : α) : AttrHist α :=
  match context_value with
  | none => ⟨[], [old_value], []⟩
  | some v => if v == old_value then ⟨[], [old_value], []⟩ else ⟨[v], [], [old_value]⟩

/-- The target values of a bulk query-level UPDATE
(`update_context.values`), restricted to the three fields the histogram
code inspects. -/
structure UpdateValues where
  status : Option String
  severity : Option String
  confirmed : Option Bool
deriving DecidableEq, Repr

/-- The per-row body of `alter_histogram_on_before_compile_update`
(events.py, lines 297-307): build dummy histories from the update target
values against the row and run the general updater; an exception raised
for an earlier row aborts the loop. -/
def process_update_row (today : Nat) (values : UpdateValues)
    (acc : Except HistErr HistDB) (inst : VulnRowInst) : Except HistErr HistDB :=
  match acc with
  | .error e => .error e
  | .ok db =>
    alter_histogram_on_update_general db today inst.workspace_id
      (some (get_history_from_context_values values.status inst.status))
      (some (get_history_from_context_values values.confirmed inst.confirmed))
      (some (get_history_from_context_values values.severity inst.severity))

/-- Embedding of `alter_histogram_on_before_compile_update` (events.py,
lines 283-307).  The update query carries an optional id filter
(`id_filter`, the parameters whose names start with `id_`) together with
its remaining filter criteria (`extra_filter`); when the extracted id
list is non-empty the instances are re-queried by id alone, dropping
every other filter of the original query. -/
def alter_histogram_on_before_compile_update (db : HistDB) (today : Nat)
    (all_vulns : List VulnRowInst) (id_filter : Option (List Nat))
    (extra_filter : VulnRowInst → Bool) (values : UpdateValues) :
    Except HistErr HistDB :=
  let ids : List Nat := match id_filter with | none => [] | some l => l
  let instances : List VulnRowInst :=
    if ids.isEmpty then
      all_vulns.filter (fun r =>
        (match id_filter with
         | none => true
         | some l => l.contains r.vid) && extra_filter r)
    else
      all_vulns.filter (fun r => ids.contains r.vid)
  instances.foldl (process_update_row today values) (.ok db)

/-- The attributes of a Host or Service instance read by the
change-notification hooks.  Timestamps are in whole seconds. -/
structure AssetInstance where
  aid : Nat
  class_name : String
  display_name : String
  workspace_name : String
  create_date : Int
  update_date : Int
deriving DecidableEq, Repr

/-- A change-notification message as built by the event hooks. -/
structure ChangeMsg where
  mid : Nat
  action : String
  mtype : String
  mname : String
  mworkspace : String
deriving DecidableEq, Repr

/-- The `seconds` component of a normalized Python `timedelta` built from
`delta` whole seconds: `timedelta` stores `(days, seconds, microseconds)`
with `0 <= seconds < 86400`, so the component is `delta mod 86400`. -/
def timedelta_seconds_component (delta : Int) : Int :=
  delta % 86400

/-- Embedding of `update_object_event` (events.py, lines 79-93): the
queue is the process-wide `changes_queue`, represented as the list of
messages enqueued so far.  The suppression test is
`(update_date - create_date).seconds < 30`, which reads the seconds
component of the timedelta, not the total elapsed seconds. -/
def update_object_event (queue : List ChangeMsg) (inst : AssetInstance) :
    List ChangeMsg :=
  let delta := inst.update_date - inst.create_date
  if timedelta_seconds_component delta < 30 then queue
  else
    queue ++ [⟨inst.aid, "UPDATE", inst.class_name, inst.display_name,
               inst.workspace_name⟩]

/-- The workspace reference of the parent object, as read by the
workspace-consistency hook; workspaces are identified by their surrogate
id. -/
structure ParentSnapshot where
  workspace : Nat
  workspace_id : Nat
deriving DecidableEq, Repr

/-- A child entity as seen by the workspace-consistency hook: its own
workspace reference and foreign key, plus the optional parent. -/
structure ChildInstance where
  workspace : Nat
  workspace_id : Nat
  parent : Option ParentSnapshot
deriving DecidableEq, Repr

/-- Outcome of a Python `assert` statement chain. -/
inductive AssertResult where
  | ok
  | assertion_failed (msg : String)
deriving DecidableEq, Repr

/-- Embedding of `after_insert_check_child_has_same_workspace`
(events.py, lines 96-106): with a truthy parent, assert equality of the
workspace references and then of the workspace ids; a failing assert
raises `AssertionError` and aborts the operation. -/
def after_insert_check_child_has_same_workspace (inserted_instance : ChildInstance) :
    AssertResult :=
  match inserted_instance.parent with
  | none => .ok
  | some p =>
    if inserted_instance.workspace == p.workspace then
      if inserted_instance.workspace_id == p.workspace_id then .ok
      else .assertion_failed "Conflicting workspace_id assignation for objects. This should never happen!!!"
    else .assertion_failed "Conflicting workspace assignation for objects. This should never happen!!!"

/-- A class found in the `faraday.server.models` module by the
registration loop; `has_workspace_id` is the truthiness of
`getattr(obj, 'workspace_id', None)`. -/
structure ModelClassDecl where
  model_name : String
  has_workspace_id : Bool
deriving DecidableEq, Repr

/-- The two ORM lifecycle events the consistency check is registered
for. -/
inductive HookEvent where
  | after_insert
  | after_update
deriving DecidableEq, Repr

/-- Embedding of the registration loop (events.py, lines 311-314): for
each class of the models module that declares a truthy `workspace_id`,
listen to the consistency check on `after_insert` and `after_update`. -/
def registered_workspace_checks (models : List ModelClassDecl) :
    List (String × HookEvent) :=
  (models.filter (fun m => m.has_workspace_id)).flatMap
    (fun m => [(m.model_name, HookEvent.after_insert),
               (m.model_name, HookEvent.after_update)])

/-- A persisted row visible to the generic API views: surrogate id,
workspace foreign key, and the (string-valued) model fields. -/
structure ApiObjRow where
  oid : Nat
  workspace_id : Nat
  field_values : List (String × String)
deriving DecidableEq, Repr

/-- Value of a named field of a persisted row (`getattr`). -/
def row_field_value (r : ApiObjRow) (field_name : String) : String :=
  match r.field_values.lookup field_name with
  | some v => v
  | none => ""

/-- The not-yet-persisted object handed to `_validate_uniqueness`; its
workspace is already resolved. -/
structure ObjSnapshot where
  workspace_id : Nat
  field_values : List (String × String)
deriving DecidableEq, Repr

/-- Value of a named field of the pending object (`getattr(obj, field_name)`). -/
def obj_field_value (obj : ObjSnapshot) (field_name : String) : String :=
  match obj.field_values.lookup field_name with
  | some v => v
  | none => ""

/-- Outcome of `_validate_uniqueness`. -/
inductive UniqOutcome where
  | passed
  | unprocessable (field_name : String) (value : String)
  | multiple_results_found (field_name : String)
deriving DecidableEq, Repr

/-- Session-level effects emitted while validating, in order. -/
inductive SessionEvt where
  | rollback
  | abort_422 (field_name : String) (value : String)
deriving DecidableEq, Repr

/-- The per-field conflict query of
`GenericWorkspacedView._validate_uniqueness` (base.py, lines 216-224):
rows of the same workspace with the same field value, excluding the
object itself when `object_id` is given. -/
def uniq_conflict_rows (rows : List ApiObjRow) (obj : ObjSnapshot)
    (object_id : Option Nat) (field_name : String) : List ApiObjRow :=
  rows.filter (fun r =>
    r.workspace_id == obj.workspace_id
    && row_field_value r field_name == obj_field_value obj field_name
    && (match object_id with
        | none => true
        | some oid => !(r.oid == oid)))

/-- Embedding of `GenericWorkspacedView._validate_uniqueness` (base.py,
lines 211-229): iterate the configured unique fields in order; on the
first field whose conflict query returns exactly one row, roll back the
session and abort with 422 naming the field and value; a query returning
more than one row makes `one_or_none` raise `MultipleResultsFound`. -/
def validate_uniqueness_workspaced (rows : List ApiObjRow)
    (unique_fields : List String) (obj : ObjSnapshot)
    (object_id : Option Nat) : UniqOutcome × List SessionEvt :=
  match unique_fields with
  | [] => (.passed, [])
  | field_name :: rest =>
    match uniq_conflict_rows rows obj object_id field_name with
    | [] => validate_uniqueness_workspaced rows rest obj object_id
    | [_] =>
      (.unprocessable field_name (obj_field_value obj field_name),
       [.rollback, .abort_422 field_name (obj_field_value obj field_name)])
    | _ => (.multiple_results_found field_name, [])

/-- Embedding of `GenericView._validate_uniqueness` (base.py, lines
152-154): the body is a TODO stub that returns True without querying
anything. -/
def validate_uniqueness_generic (_obj : ObjSnapshot) (_object_id : Option Nat) :
    Bool :=
  true

/-- Outcome of `_perform_create`. -/
inductive CreateOutcome where
  | created (obj : ObjSnapshot)
  | failed_422 (field_name : String) (value : String)
  | raised_multiple (field_name : String)
deriving DecidableEq, Repr

/-- Embedding of `CreateMixin._perform_create` on a plain `GenericView`
(base.py, lines 335-343): it calls `self._validate_uniqueness(obj)`,
which is the TODO stub, so the object is always added regardless of the
existing rows and configured unique fields. -/
def perform_create_generic (_rows : List ApiObjRow)
    (_unique_fields : List String) (obj : ObjSnapshot) : CreateOutcome :=
  let _ := validate_uniqueness_generic obj none
  .created obj

/-- Embedding of `CreateWorkspacedMixin._perform_create` (base.py, lines
349-362) up to the session commit: workspace resolution happened, then
uniqueness validation decides the outcome. -/
def perform_create_workspaced (rows : List ApiObjRow)
    (unique_fields : List String) (obj : ObjSnapshot) :
    CreateOutcome × List SessionEvt :=
  match validate_uniqueness_workspaced rows unique_fields obj none with
  | (.passed, tr) => (.created obj, tr)
  | (.unprocessable f v, tr) => (.failed_422 f v, tr)
  | (.multiple_results_found f, tr) => (.raised_multiple f, tr)

/-- Result of `_get_object`. -/
inductive GetObjectResult where
  | not_found_404 (msg : String)
  | multiple_results_found
  | found (r : ApiObjRow)
deriving DecidableEq, Repr

/-- The default `lookup_field_type` conversion `int(object_id)` of the
view, on non-negative decimal URL segments; a non-digit segment raises
`ValueError`, modelled as `none`. -/
def parse_lookup_id (s : String) : Option Nat :=
  if !s.data.isEmpty && s.data.all (fun c => c.isDigit) then
    some (s.data.foldl (fun n c => n * 10 + (c.toNat - 48)) 0)
  else none

/-- Embedding of `GenericView._get_object` (base.py, lines 136-143) /
`GenericWorkspacedView._get_object` (lines 202-209): `base_query` is the
already-scoped base query, `lookup_field` projects the configured lookup
field, and `object_id` is the raw URL segment.  `_validate_object_id`
aborts 404 on a malformed id; `.one()` raises `NoResultFound` on zero
rows, which is caught and turned into a 404, and `MultipleResultsFound`
on several rows, which is not caught. -/
def get_object (base_query : List ApiObjRow) (lookup_field : ApiObjRow → Nat)
    (object_id : String) : GetObjectResult :=
  match parse_lookup_id object_id with
  | none => .not_found_404 "Invalid format of lookup field"
  | some v =>
    match base_query.filter (fun r => lookup_field r == v) with
    | [] => .not_found_404 ("Object with id " ++ object_id ++ " not found")
    | [r] => .found r
    | _ => .multiple_results_found

/-- Column types appearing in the migration. -/
inductive ColType where
  | integer
  | dateCol
deriving DecidableEq, Repr

/-- A column declaration (`sa.Column(name, type, nullable=...)`). -/
structure SAColumn where
  cname : String
  ctype : ColType
  nullable : Bool
deriving DecidableEq, Repr

/-- A foreign key constraint (`sa.ForeignKeyConstraint(columns, refcolumns)`). -/
structure FKConstraint where
  columns : List String
  refcolumns : List String
deriving DecidableEq, Repr

/-- A table of the schema. -/
structure SATable where
  tname : String
  columns : List SAColumn
  foreign_keys : List FKConstraint
  primary_key : List String
deriving DecidableEq, Repr

/-- An index of the schema (`op.create_index(name, table, columns, unique)`). -/
structure SAIndex where
  iname : String
  table_name : String
  columns : List String
  unique : Bool
deriving DecidableEq, Repr

/-- A relational schema: its tables and indexes, in creation order. -/
structure DBSchema where
  tables : List SATable
  indexes : List SAIndex
deriving DecidableEq, Repr

/-- The `vulnerability_hit_count` table exactly as created by `upgrade`
of revision b31fa447f00c (migration file, lines 21-59). -/
def vulnerability_hit_count_table : SATable :=
  { tname := "vulnerability_hit_count",
    columns := [
      ⟨"id", .integer, false⟩,
      ⟨"workspace_id", .integer, false⟩,
      ⟨"date", .dateCol, false⟩,
      ⟨"low_open_unconfirmed", .integer, false⟩,
      ⟨"low_open_confirmed", .integer, false⟩,
      ⟨"low_risk_accepted_unconfirmed", .integer, false⟩,
      ⟨"low_risk_accepted_confirmed", .integer, false⟩,
      ⟨"low_re_opened_unconfirmed", .integer, false⟩,
      ⟨"low_re_opened_confirmed", .integer, false⟩,
      ⟨"low_closed_unconfirmed", .integer, false⟩,
      ⟨"low_closed_confirmed", .integer, false⟩,
      ⟨"medium_open_unconfirmed", .integer, false⟩,
      ⟨"medium_open_confirmed", .integer, false⟩,
      ⟨"medium_risk_accepted_unconfirmed", .integer, false⟩,
      ⟨"medium_risk_accepted_confirmed", .integer, false⟩,
      ⟨"medium_re_opened_unconfirmed", .integer, false⟩,
      ⟨"medium_re_opened_confirmed", .integer, false⟩,
      ⟨"medium_closed_unconfirmed", .integer, false⟩,
      ⟨"medium_closed_confirmed", .integer, false⟩,
      ⟨"high_open_unconfirmed", .integer, false⟩,
      ⟨"high_open_confirmed", .integer, false⟩,
      ⟨"high_risk_accepted_unconfirmed", .integer, false⟩,
      ⟨"high_risk_accepted_confirmed", .integer, false⟩,
      ⟨"high_re_opened_unconfirmed", .integer, false⟩,
      ⟨"high_re_opened_confirmed", .integer, false⟩,
      ⟨"high_closed_unconfirmed", .integer, false⟩,
      ⟨"high_closed_confirmed", .integer, false⟩,
      ⟨"critical_open_unconfirmed", .integer, false⟩,
      ⟨"critical_open_confirmed", .integer, false⟩,
      ⟨"critical_risk_accepted_unconfirmed", .integer, false⟩,
      ⟨"critical_risk_accepted_confirmed", .integer, false⟩,
      ⟨"critical_re_opened_unconfirmed", .integer, false⟩,
      ⟨"critical_re_opened_confirmed", .integer, false⟩,
      ⟨"critical_closed_unconfirmed", .integer, false⟩,
      ⟨"critical_closed_confirmed", .integer, false⟩],
    foreign_keys := [⟨["workspace_id"], ["workspace.id"]⟩],
    primary_key := ["id"] }

/-- The index created by `upgrade` (migration file, line 60). -/
def vulnerability_hit_count_index : SAIndex :=
  ⟨"ix_vulnerability_hit_count_workspace_id", "vulnerability_hit_count",
   ["workspace_id"], false⟩

/-- Embedding of `upgrade` (migration file, lines 19-61): create the
table, then create the index. -/
def upgrade (s : DBSchema) : DBSchema :=
  { s with tables := s.tables ++ [vulnerability_hit_count_table],
           indexes := s.indexes ++ [vulnerability_hit_count_index] }

/-- Embedding of `downgrade` (migration file, lines 64-68): drop the
index, then drop the table. -/
def downgrade (s : DBSchema) : DBSchema :=
  let s1 := { s with indexes := s.indexes.filter (fun i =>
    !(i.iname == "ix_vulnerability_hit_count_workspace_id"
      && i.table_name == "vulnerability_hit_count")) }
  { s1 with tables := s1.tables.filter (fun t =>
    !(t.tname == "vulnerability_hit_count")) }

/-- The four severities of the hit-count matrix, in the order of the
migration. -/
def hc_severities : List String := ["low", "medium", "high", "critical"]

/-- The four status buckets of the hit-count matrix, in the order of the
migration. -/
def hc_statuses : List String := ["open", "risk_accepted", "re_opened", "closed"]

/-- The two confirmation states of the hit-count matrix. -/
def hc_confirmations : List String := ["unconfirmed", "confirmed"]

/-- Every counter column name of the severity-status-confirmation cross
product, named by the severity, status and confirmation joined with
underscores. -/
def counter_column_names : List String :=
  hc_severities.flatMap (fun sev =>
    hc_statuses.flatMap (fun st =>
      hc_confirmations.map (fun conf => sev ++ "_" ++ st ++ "_" ++ conf)))

/-- The Host instance of the failing input for C4: updated 1 day and
5 seconds after creation. -/
def host_c4 : AssetInstance := ⟨1, "Host", "10.0.0.1", "ws1", 0, 86405⟩


/-- A pre-existing schema holding only the workspace table, used to
witness the migration round trip. -/
def ws_only_schema : DBSchema :=
  ⟨[⟨"workspace", [⟨"id", .integer, false⟩], [], ["id"]⟩], []⟩


/-- A vulnerability row that the extra filter of the C9 witness
excludes, yet whose delta is still applied. -/
def vuln_c9 : VulnRowInst := ⟨1, some 2, "open", "medium", false⟩


/-- The histogram state of the C1 counterexample: one row for
(workspace 1, day 0) with all counters at 5. -/
def db_c1 : HistDB := ⟨[⟨0, 1, 0, 5, 5, 5, 5⟩], 1⟩


/-- The duplicate row and pending object of the C2 counterexample. -/
def dup_row_c2 : ApiObjRow := ⟨7, 1, [("name", "dup")]⟩


/-- A second pre-existing row of workspace 1 with the same duplicate
value, for the many-duplicates part of the C2 counterexample. -/
def dup_row_c2b : ApiObjRow := ⟨8, 1, [("name", "dup")]⟩

/-- The pending object of the C2 counterexample, in the same workspace
with the same value for the configured unique field. -/
def obj_c2 : ObjSnapshot := ⟨1, [("name", "dup")]⟩


/-- The two rows of the C3 counterexample, both in workspace 1; the view
is configured with a non-id lookup field on which they collide. -/
def rows_c3 : List ApiObjRow := [⟨5, 1, []⟩, ⟨6, 1, []⟩]


/-- Whether a Python call returned normally (`Except.ok`) rather than
raising. -/
def except_is_ok {ε α : Type} : Except ε α → Bool
  | .ok _ => true
  | .error _ => false


/-! Theorems. -/

/-- Keeping a filter whose predicate holds on every element of the list. -/
theorem filter_of_all_true {α : Type} (p : α → Bool) (l : List α)
    (h : ∀ x ∈ l, p x = true) : l.filter p = l := by
  induction l with
  | nil => rfl
  | cons a t ih =>
    have ha : p a = true := h a (by simp)
    simp [List.filter_cons, ha, ih (fun x hx => h x (by simp [hx]))]

/-- C4: the claim says a change-notification message is enqueued if and
only if `update_date - create_date` is at least 30 seconds, so an update
86405 seconds (1 day + 5 s) after creation should enqueue exactly one
UPDATE message.  The code tests `delta.seconds < 30`, the seconds
component of the normalized timedelta rather than the total elapsed
time, so this update is suppressed: a bug relative to the inline comment
(the guard is meant to absorb follow-up commits made moments after
creation, not updates a day later).  Within a single day the behaviour
matches the claim (29 s suppressed, 31 s enqueued). -/
theorem C4_code_evaluation :
    host_c4.update_date - host_c4.create_date = 86405
    ∧ update_object_event [] host_c4 = []
    ∧ update_object_event [] ⟨1, "Host", "10.0.0.1", "ws1", 0, 29⟩ = []
    ∧ update_object_event [] ⟨1, "Host", "10.0.0.1", "ws1", 0, 31⟩
        = [⟨1, "UPDATE", "Host", "10.0.0.1", "ws1"⟩] := by decide

/-- C8 counterexample: the created table does not have exactly 34
columns; it has 35 (surrogate id, workspace_id, date, plus the 32
counters). -/
theorem C8_counterexample :
    vulnerability_hit_count_table.columns.length ≠ 34
    ∧ vulnerability_hit_count_table.columns.length = 35 := by decide

/-- C8 (amended: 35 columns, not 34): `upgrade` creates the
vulnerability_hit_count table with a surrogate id primary key, a
non-nullable workspace_id with a foreign key to workspace.id and a
non-unique index, a date, and exactly the 32 non-nullable integer
counter columns named severity_status_confirmation over the 4 severities,
4 statuses and 2 confirmation states; `downgrade` drops the index and
then the table, fully reversing `upgrade` on any schema that did not
already contain them. -/
theorem C8_amended (s : DBSchema)
    (ht : ∀ t ∈ s.tables, t.tname ≠ "vulnerability_hit_count")
    (hi : ∀ i ∈ s.indexes, i.iname ≠ "ix_vulnerability_hit_count_workspace_id") :
    vulnerability_hit_count_table.columns.length = 35
    ∧ vulnerability_hit_count_table.columns.map SAColumn.cname
        = "id" :: "workspace_id" :: "date" :: counter_column_names
    ∧ (vulnerability_hit_count_table.columns.drop 3).all
        (fun c => c.ctype == ColType.integer && !c.nullable) = true
    ∧ vulnerability_hit_count_table.columns.take 3
        = [⟨"id", .integer, false⟩, ⟨"workspace_id", .integer, false⟩,
           ⟨"date", .dateCol, false⟩]
    ∧ vulnerability_hit_count_table.foreign_keys
        = [⟨["workspace_id"], ["workspace.id"]⟩]
    ∧ vulnerability_hit_count_table.primary_key = ["id"]
    ∧ vulnerability_hit_count_index
        = ⟨"ix_vulnerability_hit_count_workspace_id", "vulnerability_hit_count",
           ["workspace_id"], false⟩
    ∧ (upgrade s).tables = s.tables ++ [vulnerability_hit_count_table]
    ∧ (upgrade s).indexes = s.indexes ++ [vulnerability_hit_count_index]
    ∧ downgrade (upgrade s) = s := by
  refine ⟨by decide, by decide, by decide, by decide, by decide, by decide,
    by decide, rfl, rfl, ?_⟩
  have hidx : (s.indexes ++ [vulnerability_hit_count_index]).filter
      (fun i => !(i.iname == "ix_vulnerability_hit_count_workspace_id"
        && i.table_name == "vulnerability_hit_count")) = s.indexes := by
    rw [List.filter_append,
      filter_of_all_true _ s.indexes (fun i hmem => by simp [hi i hmem])]
    simp [vulnerability_hit_count_index]
  have htab : (s.tables ++ [vulnerability_hit_count_table]).filter
      (fun t => !(t.tname == "vulnerability_hit_count")) = s.tables := by
    rw [List.filter_append,
      filter_of_all_true _ s.tables (fun t hmem => by simp [ht t hmem])]
    simp [vulnerability_hit_count_table]
  simp only [downgrade, upgrade]
  rw [hidx, htab]

/-- Witness for C8 at a schema containing only the workspace table. -/
theorem C8_amended_witness :
    (∀ t ∈ ws_only_schema.tables, t.tname ≠ "vulnerability_hit_count")
    ∧ (∀ i ∈ ws_only_schema.indexes,
        i.iname ≠ "ix_vulnerability_hit_count_workspace_id")
    ∧ downgrade (upgrade ws_only_schema) = ws_only_schema :=
  ⟨by decide, by decide,
   (C8_amended ws_only_schema (by decide) (by decide)).2.2.2.2.2.2.2.2.2⟩

/-- C9: when a bulk query-level update carries id parameters, the
histogram maintenance re-queries the matched instances by the id list
alone, so its per-row deltas are applied to every vulnerability whose id
is in the list, independently of any additional filter criteria of the
original query. -/
theorem C9_bulk_ids (db : HistDB) (today : Nat) (all_vulns : List VulnRowInst)
    (ids : List Nat) (extra_filter : VulnRowInst → Bool) (values : UpdateValues)
    (h : ids ≠ []) :
    alter_histogram_on_before_compile_update db today all_vulns (some ids)
        extra_filter values
      = (all_vulns.filter (fun r => ids.contains r.vid)).foldl
          (process_update_row today values) (.ok db)
    ∧ ∀ g : VulnRowInst → Bool,
        alter_histogram_on_before_compile_update db today all_vulns (some ids)
            extra_filter values
          = alter_histogram_on_before_compile_update db today all_vulns (some ids)
              g values := by
  have hne : ids.isEmpty = false := by
    cases ids with
    | nil => exact absurd rfl h
    | cons a t => rfl
  exact ⟨by simp [alter_histogram_on_before_compile_update, hne],
    fun g => by simp [alter_histogram_on_before_compile_update, hne]⟩

/-- Witness for C9: a bulk update closing vulnerability 1, with an
additional filter that matches no row at all; the histogram delta for
row 1 is applied anyway. -/
theorem C9_bulk_ids_witness :
    ([1] : List Nat) ≠ []
    ∧ alter_histogram_on_before_compile_update ⟨[⟨0, 2, 5, 1, 1, 1, 1⟩], 1⟩ 5
        [vuln_c9] (some [1]) (fun _ => false) ⟨some "closed", none, none⟩
      = ([vuln_c9].filter (fun r => [1].contains r.vid)).foldl
          (process_update_row 5 ⟨some "closed", none, none⟩)
          (.ok ⟨[⟨0, 2, 5, 1, 1, 1, 1⟩], 1⟩) :=
  ⟨by decide,
   (C9_bulk_ids ⟨[⟨0, 2, 5, 1, 1, 1, 1⟩], 1⟩ 5 [vuln_c9] [1]
     (fun _ => false) ⟨some "closed", none, none⟩ (by decide)).1⟩

/-- C10: deleting a VulnerabilityGeneric whose severity is not tracked
leaves the histogram entirely unchanged — in particular the confirmed
counter is not decremented even when the deleted row was confirmed and
open or re-opened — both on the single-row delete hook and on the
per-row processing of a bulk query-level delete. -/
theorem C10_delete_untracked (db : HistDB) (today : Nat) (inst : VulnRowInst)
    (h : SEVERITIES_ALLOWED.contains inst.severity = false) :
    alter_histogram_on_delete db today inst = db
    ∧ process_delete_row today db inst = db
    ∧ alter_histogram_on_before_compile_delete db today [inst] = db := by
  have h' : inst.severity ∉ SEVERITIES_ALLOWED := by simpa using h
  refine ⟨?_, ?_, ?_⟩ <;>
    simp [alter_histogram_on_delete, process_delete_row,
      alter_histogram_on_before_compile_delete, h']

/-- Witness for C10: a confirmed, open, informational-severity
vulnerability whose deletion leaves a non-trivial histogram untouched. -/
theorem C10_delete_untracked_witness :
    SEVERITIES_ALLOWED.contains "informational" = false
    ∧ alter_histogram_on_delete ⟨[⟨0, 2, 5, 1, 1, 1, 1⟩], 1⟩ 5
        ⟨1, some 2, "open", "informational", true⟩
      = ⟨[⟨0, 2, 5, 1, 1, 1, 1⟩], 1⟩ :=
  ⟨by decide,
   (C10_delete_untracked ⟨[⟨0, 2, 5, 1, 1, 1, 1⟩], 1⟩ 5
     ⟨1, some 2, "open", "informational", true⟩ (by decide)).1⟩

/-- C1 counterexample: vulnerability closed (open to closed) while its
severity simultaneously changes from medium to high, confirmed unchanged
false.  The claim says the update prefers the new/added severity
("high"), i.e. the high counter would drop to 4; the code takes the
deleted (old) severity and decrements medium instead, so the result has
medium 4 and high 5, not high 4. -/
theorem C1_counterexample :
    alter_histogram_on_update_general db_c1 0 (some 1)
        (some ⟨[STATUS_CLOSED], [], [STATUS_OPEN]⟩)
        (some ⟨[], [false], []⟩)
        (some ⟨[SEVERITY_HIGH], [], [SEVERITY_MEDIUM]⟩)
      = .ok ⟨[⟨0, 1, 0, 4, 5, 5, 5⟩], 1⟩
    ∧ alter_histogram_on_update_general db_c1 0 (some 1)
        (some ⟨[STATUS_CLOSED], [], [STATUS_OPEN]⟩)
        (some ⟨[], [false], []⟩)
        (some ⟨[SEVERITY_HIGH], [], [SEVERITY_MEDIUM]⟩)
      ≠ .ok ⟨[⟨0, 1, 0, 5, 4, 5, 5⟩], 1⟩ := by decide

/-- C1 (amended: on a close the code prefers the deleted/old severity
value, not the new/added one): for every update whose status changes from
open or re-opened to closed or risk-accepted, with the severity in effect
`sev` tracked — `sev` being the deleted (old) severity when severity also
changed in the same update, else the unchanged severity — the histogram
update subtracts 1 from the counter of `sev` and applies a
confirmed-delta of -1 exactly when `confirmed` was true before the close
(its unchanged value, or its deleted value if confirmed changed in the
same update). -/
theorem C1_amended (db : HistDB) (today w : Nat)
    (s_old s_new sev sev_new : String) (cb : Bool) (ch : AttrHist Bool)
    (svh : AttrHist String)
    (h_new : s_new = STATUS_CLOSED ∨ s_new = STATUS_RISK_ACCEPTED)
    (h_old : s_old = STATUS_OPEN ∨ s_old = STATUS_RE_OPENED)
    (h_conf : ch = ⟨[], [cb], []⟩ ∨ ∃ cn, ch = ⟨[cn], [], [cb]⟩)
    (h_sev : svh = ⟨[], [sev], []⟩ ∨ svh = ⟨[sev_new], [], [sev]⟩)
    (h_track : SEVERITIES_ALLOWED.contains sev = true) :
    alter_histogram_on_update_general db today (some w)
        (some ⟨[s_new], [], [s_old]⟩) (some ch) (some svh)
      = .ok (create_or_update_histogram db today (some w)
          (if sev == SEVERITY_MEDIUM then -1 else 0)
          (if sev == SEVERITY_HIGH then -1 else 0)
          (if sev == SEVERITY_CRITICAL then -1 else 0)
          (if cb then -1 else 0)) := by
  have h_track' : sev = SEVERITY_MEDIUM ∨ sev = SEVERITY_HIGH
      ∨ sev = SEVERITY_CRITICAL := by
    simpa [SEVERITIES_ALLOWED] using h_track
  rcases h_conf with rfl | ⟨cn, rfl⟩ <;>
    rcases h_sev with rfl | rfl <;>
    rcases h_new with rfl | rfl <;>
    rcases h_old with rfl | rfl <;>
    rcases h_track' with rfl | rfl | rfl <;>
    first
      | rfl
      | (cases cb <;> rfl)

/-- Witness for C1 on an unchanged-severity close (the scenario of spec
test property 5): closing an open, confirmed, critical vulnerability
with severity and confirmed unchanged decrements critical and
confirmed. -/
theorem C1_amended_witness :
    ((STATUS_CLOSED : String) = STATUS_CLOSED ∨ (STATUS_CLOSED : String) = STATUS_RISK_ACCEPTED)
    ∧ SEVERITIES_ALLOWED.contains SEVERITY_CRITICAL = true
    ∧ alter_histogram_on_update_general ⟨[⟨0, 3, 7, 0, 0, 2, 2⟩], 1⟩ 7 (some 3)
        (some ⟨[STATUS_CLOSED], [], [STATUS_OPEN]⟩)
        (some ⟨[], [true], []⟩)
        (some ⟨[], [SEVERITY_CRITICAL], []⟩)
      = .ok (create_or_update_histogram ⟨[⟨0, 3, 7, 0, 0, 2, 2⟩], 1⟩ 7 (some 3)
          (if SEVERITY_CRITICAL == SEVERITY_MEDIUM then -1 else 0)
          (if SEVERITY_CRITICAL == SEVERITY_HIGH then -1 else 0)
          (if SEVERITY_CRITICAL == SEVERITY_CRITICAL then -1 else 0)
          (if true then -1 else 0)) :=
  ⟨Or.inl rfl, by decide,
   C1_amended ⟨[⟨0, 3, 7, 0, 0, 2, 2⟩], 1⟩ 7 3 STATUS_OPEN STATUS_CLOSED
     SEVERITY_CRITICAL "low" true ⟨[], [true], []⟩ ⟨[], [SEVERITY_CRITICAL], []⟩
     (Or.inl rfl) (Or.inl rfl) (Or.inl rfl) (Or.inl rfl) (by decide)⟩

/-- C2 counterexample, in two parts.  First, a create through a plain
(non-workspaced) GenericView with configured unique fields ["name"],
while another row of the same workspace already holds the same value:
the conflict query would find the duplicate, but
`GenericView._validate_uniqueness` is a TODO stub returning True, so
the create succeeds with no 422 and no rollback.  Second, a create
through the workspace-scoped view when two other rows of the workspace
already hold the same value: `one_or_none()` raises
MultipleResultsFound, so the operation fails without a 422 and without
a rollback.  Both contradict the claim's promise of a 422 with rollback
whenever another row with the same value exists. -/
theorem C2_counterexample :
    uniq_conflict_rows [dup_row_c2] obj_c2 none "name" = [dup_row_c2]
    ∧ validate_uniqueness_generic obj_c2 none = true
    ∧ perform_create_generic [dup_row_c2] ["name"] obj_c2 = .created obj_c2
    ∧ uniq_conflict_rows [dup_row_c2, dup_row_c2b] obj_c2 none "name"
        = [dup_row_c2, dup_row_c2b]
    ∧ validate_uniqueness_workspaced [dup_row_c2, dup_row_c2b] ["name"] obj_c2 none
        = (.multiple_results_found "name", [])
    ∧ perform_create_workspaced [dup_row_c2, dup_row_c2b] ["name"] obj_c2
        = (.raised_multiple "name", []) := by
  decide

/-- C2 (amended: only the workspace-scoped view enforces uniqueness —
the base view's check is an unimplemented no-op — and the 422 path is
taken when the conflict query finds exactly one other row): for a create
or update through a workspace-scoped view, if `f` is the first
configured unique field whose conflict query (same workspace, same
value, excluding the object's own id when updating) returns exactly one
row, the operation fails with a 422 validation error naming the field
and value, and the session is rolled back before the 422 is signaled;
on create the failure propagates out of `_perform_create`. -/
theorem C2_amended (rows : List ApiObjRow) (pre post : List String) (f : String)
    (obj : ObjSnapshot) (object_id : Option Nat) (r : ApiObjRow)
    (hpre : ∀ g ∈ pre, uniq_conflict_rows rows obj object_id g = [])
    (hf : uniq_conflict_rows rows obj object_id f = [r]) :
    validate_uniqueness_workspaced rows (pre ++ f :: post) obj object_id
      = (.unprocessable f (obj_field_value obj f),
         [.rollback, .abort_422 f (obj_field_value obj f)])
    ∧ (object_id = none →
       perform_create_workspaced rows (pre ++ f :: post) obj
         = (.failed_422 f (obj_field_value obj f),
            [.rollback, .abort_422 f (obj_field_value obj f)])) := by
  have hmain : validate_uniqueness_workspaced rows (pre ++ f :: post) obj object_id
      = (.unprocessable f (obj_field_value obj f),
         [.rollback, .abort_422 f (obj_field_value obj f)]) := by
    induction pre with
    | nil => simp [validate_uniqueness_workspaced, hf]
    | cons g t ih =>
      have hg : uniq_conflict_rows rows obj object_id g = [] := hpre g (by simp)
      simp only [List.cons_append, validate_uniqueness_workspaced, hg]
      exact ih (fun x hx => hpre x (by simp [hx]))
  refine ⟨hmain, fun hoid => ?_⟩
  subst hoid
  simp [perform_create_workspaced, hmain]

/-- Witness for C2: creating a second object named dup in workspace 1
through the workspace-scoped create path. -/
theorem C2_amended_witness :
    uniq_conflict_rows [dup_row_c2] obj_c2 none "name" = [dup_row_c2]
    ∧ validate_uniqueness_workspaced [dup_row_c2] ["name"] obj_c2 none
      = (.unprocessable "name" (obj_field_value obj_c2 "name"),
         [.rollback, .abort_422 "name" (obj_field_value obj_c2 "name")]) :=
  ⟨by decide,
   (C2_amended [dup_row_c2] [] [] "name" obj_c2 none dup_row_c2
     (by intro g hg; cases hg) (by decide)).1⟩

/-- C3 counterexample: with a well-formed lookup id matching two rows,
`_get_object` does not fail with NotFound; `.one()` raises
`MultipleResultsFound`, which the `except NoResultFound` handler does
not catch. -/
theorem C3_counterexample :
    get_object rows_c3 (fun r => r.workspace_id) "1" = .multiple_results_found
    ∧ ∀ msg, get_object rows_c3 (fun r => r.workspace_id) "1"
        ≠ .not_found_404 msg := by
  refine ⟨by decide, fun msg hmsg => ?_⟩
  rw [show get_object rows_c3 (fun r => r.workspace_id) "1"
    = .multiple_results_found from by decide] at hmsg
  exact GetObjectResult.noConfusion hmsg

/-- C3 (amended: more-than-one match raises MultipleResultsFound instead
of NotFound): for a well-formed lookup id, `_get_object` fails with
NotFound (404) exactly when zero rows match the lookup field, returns
the object when exactly one row matches, and raises an uncaught
MultipleResultsFound when several rows match. -/
theorem C3_amended (base_query : List ApiObjRow) (lookup_field : ApiObjRow → Nat)
    (object_id : String) (v : Nat)
    (h : parse_lookup_id object_id = some v) :
    (base_query.filter (fun r => lookup_field r == v) = [] →
       get_object base_query lookup_field object_id
         = .not_found_404 ("Object with id " ++ object_id ++ " not found"))
    ∧ (∀ r, base_query.filter (fun r => lookup_field r == v) = [r] →
       get_object base_query lookup_field object_id = .found r)
    ∧ (∀ r1 r2 rest, base_query.filter (fun r => lookup_field r == v)
         = r1 :: r2 :: rest →
       get_object base_query lookup_field object_id = .multiple_results_found) := by
  refine ⟨fun h0 => ?_, fun r h1 => ?_, fun r1 r2 rest h2 => ?_⟩
  · simp [get_object, h, h0]
  · simp [get_object, h, h1]
  · simp [get_object, h, h2]

/-- Witness for C3 at a one-row query. -/
theorem C3_amended_witness :
    parse_lookup_id "5" = some 5
    ∧ ((([⟨5, 1, []⟩] : List ApiObjRow).filter (fun r => r.oid == 5) = [⟨5, 1, []⟩]) →
       get_object [⟨5, 1, []⟩] (fun r => r.oid) "5" = .found ⟨5, 1, []⟩) :=
  ⟨by decide,
   (C3_amended [⟨5, 1, []⟩] (fun r => r.oid) "5" 5 (by decide)).2.1 ⟨5, 1, []⟩⟩

/-- C5: every model class declaring a (truthy) workspace_id attribute
has the consistency check registered for both after_insert and
after_update; for an inserted or updated entity with a parent reference
the hook passes exactly when the child's workspace and workspace_id both
equal the parent's, and any violation raises an AssertionError (aborting
the operation) instead of persisting silently. -/
theorem C5_consistency (models : List ModelClassDecl) (m : ModelClassDecl)
    (inst : ChildInstance) (p : ParentSnapshot)
    (hm : m ∈ models) (hflag : m.has_workspace_id = true)
    (hp : inst.parent = some p) :
    ((m.model_name, HookEvent.after_insert) ∈ registered_workspace_checks models
     ∧ (m.model_name, HookEvent.after_update) ∈ registered_workspace_checks models)
    ∧ (after_insert_check_child_has_same_workspace inst = .ok
        ↔ inst.workspace = p.workspace ∧ inst.workspace_id = p.workspace_id)
    ∧ ((inst.workspace ≠ p.workspace ∨ inst.workspace_id ≠ p.workspace_id) →
       ∃ msg, after_insert_check_child_has_same_workspace inst
         = .assertion_failed msg) := by
  refine ⟨⟨?_, ?_⟩, ?_, ?_⟩
  · exact List.mem_flatMap.mpr ⟨m, List.mem_filter.mpr ⟨hm, hflag⟩, by simp⟩
  · exact List.mem_flatMap.mpr ⟨m, List.mem_filter.mpr ⟨hm, hflag⟩, by simp⟩
  · unfold after_insert_check_child_has_same_workspace
    rw [hp]
    by_cases h1 : inst.workspace = p.workspace <;>
      by_cases h2 : inst.workspace_id = p.workspace_id <;>
      simp [h1, h2]
  · intro hviol
    unfold after_insert_check_child_has_same_workspace
    rw [hp]
    by_cases h1 : inst.workspace = p.workspace
    · rcases hviol with h | h2
      · exact absurd h1 h
      · exact ⟨"Conflicting workspace_id assignation for objects. This should never happen!!!",
          by simp [h1, h2]⟩
    · exact ⟨"Conflicting workspace assignation for objects. This should never happen!!!",
        by simp [h1]⟩

/-- Witness for C5: a Service-like model with workspace_id, and a child
in workspace 1 whose parent is in workspace 2. -/
theorem C5_consistency_witness :
    (⟨"Service", true⟩ : ModelClassDecl) ∈ [(⟨"Service", true⟩ : ModelClassDecl)]
    ∧ ("Service", HookEvent.after_insert)
        ∈ registered_workspace_checks [⟨"Service", true⟩]
    ∧ (after_insert_check_child_has_same_workspace ⟨1, 1, some ⟨2, 2⟩⟩ = .ok
        ↔ (1 : Nat) = 2 ∧ (1 : Nat) = 2) :=
  ⟨by decide,
   ((C5_consistency [⟨"Service", true⟩] ⟨"Service", true⟩ ⟨1, 1, some ⟨2, 2⟩⟩ ⟨2, 2⟩
     (by decide) rfl rfl).1).1,
   (C5_consistency [⟨"Service", true⟩] ⟨"Service", true⟩ ⟨1, 1, some ⟨2, 2⟩⟩ ⟨2, 2⟩
     (by decide) rfl rfl).2.1⟩

/-- C6: inserting a VulnerabilityGeneric with a tracked severity updates
the histogram row for (workspace_id, today): when no row exists, a new
row seeded with the deltas (1 for that severity, 1 for confirmed exactly
when the row's confirmed flag is true) is inserted; when a row exists,
the deltas are added to its columns and every other row is untouched. -/
theorem C6_insert_hist (db : HistDB) (today : Nat) (inst : VulnRowInst) (w : Nat)
    (hsev : SEVERITIES_ALLOWED.contains inst.severity = true)
    (hws : inst.workspace_id = some w) :
    (db.rows.find? (hist_row_matches today w) = none →
      alter_histogram_on_insert db today inst
        = ⟨db.rows ++ [⟨db.nextId, w, today,
            if inst.severity == SEVERITY_MEDIUM then 1 else 0,
            if inst.severity == SEVERITY_HIGH then 1 else 0,
            if inst.severity == SEVERITY_CRITICAL then 1 else 0,
            if inst.confirmed then 1 else 0⟩], db.nextId + 1⟩)
    ∧ (∀ r, db.rows.find? (hist_row_matches today w) = some r →
      (alter_histogram_on_insert db today inst).rows
        = db.rows.map (apply_hist_deltas
            (if inst.severity == SEVERITY_MEDIUM then 1 else 0)
            (if inst.severity == SEVERITY_HIGH then 1 else 0)
            (if inst.severity == SEVERITY_CRITICAL then 1 else 0)
            (if inst.confirmed then 1 else 0) r.rid)) := by
  have hs : inst.severity = SEVERITY_MEDIUM ∨ inst.severity = SEVERITY_HIGH
      ∨ inst.severity = SEVERITY_CRITICAL := by
    simpa [SEVERITIES_ALLOWED] using hsev
  constructor
  · intro hfind
    rcases hs with hs | hs | hs <;>
      simp [alter_histogram_on_insert, create_or_update_histogram,
        increase_severities_histogram, hsev, hws, hs, hfind, SEVERITIES_ALLOWED,
        SEVERITY_MEDIUM, SEVERITY_HIGH, SEVERITY_CRITICAL]
  · intro r hfind
    rcases hs with hs | hs | hs <;>
      simp [alter_histogram_on_insert, create_or_update_histogram,
        increase_severities_histogram, hsev, hws, hs, hfind, SEVERITIES_ALLOWED,
        SEVERITY_MEDIUM, SEVERITY_HIGH, SEVERITY_CRITICAL]

/-- Witness for C6: inserting a confirmed high vulnerability in
workspace 2 on day 5 with no pre-existing histogram row. -/
theorem C6_insert_hist_witness :
    SEVERITIES_ALLOWED.contains "high" = true
    ∧ (⟨[], 0⟩ : HistDB).rows.find? (hist_row_matches 5 2) = none
    ∧ alter_histogram_on_insert ⟨[], 0⟩ 5 ⟨1, some 2, "open", "high", true⟩
      = ⟨[⟨0, 2, 5,
          if ("high" : String) == SEVERITY_MEDIUM then 1 else 0,
          if ("high" : String) == SEVERITY_HIGH then 1 else 0,
          if ("high" : String) == SEVERITY_CRITICAL then 1 else 0,
          if true then 1 else 0⟩], 1⟩ :=
  ⟨by decide, rfl,
   (C6_insert_hist ⟨[], 0⟩ 5 ⟨1, some 2, "open", "high", true⟩ 2
     (by decide) rfl).1 rfl⟩

/-- C7 counterexample: two invocations of the histogram updater with
incomplete history information that raise instead of being logged and
skipped — a status history with an added value but no deleted value
raises IndexError at `status_history.deleted[0]`, and a close transition
whose severity history has neither an unchanged nor a deleted value
raises NameError on the unassigned local `severity`. -/
theorem C7_counterexample :
    alter_histogram_on_update_general ⟨[], 0⟩ 0 (some 1)
        (some ⟨[STATUS_CLOSED], [], []⟩)
        (some ⟨[], [false], []⟩)
        (some ⟨[], [SEVERITY_MEDIUM], []⟩)
      = .error .indexError
    ∧ alter_histogram_on_update_general ⟨[], 0⟩ 0 (some 1)
        (some ⟨[STATUS_CLOSED], [], [STATUS_OPEN]⟩)
        (some ⟨[], [false], []⟩)
        (some ⟨[SEVERITY_HIGH], [], []⟩)
      = .error .nameError := by decide

/-- C7 (amended: only the guarded incompleteness cases are logged
no-ops; a status history that changed but misses its added or deleted
values, or a severity history with neither unchanged nor old/new value
inside a status-transition branch, raises): the histogram updater
returns without raising and leaves the state unchanged when any history
argument is absent or blank, or when the confirmed history changed but
misses its deleted or added values; it never raises when the status is
unchanged, whatever the severity history; and a None workspace_id makes
the aggregate write a no-op. -/
theorem C7_amended (db : HistDB) (today : Nat) (ws : Option Nat)
    (s : AttrHist String) (c : AttrHist Bool) (v : AttrHist String) :
    (∀ (sh : Option (AttrHist String)) (ch : Option (AttrHist Bool))
       (svh : Option (AttrHist String)),
       (histFalsy sh || histFalsy ch || histFalsy svh) = true →
       alter_histogram_on_update_general db today ws sh ch svh = .ok db)
    ∧ (c.unchanged = [] → (c.deleted = [] ∨ c.added = []) →
       alter_histogram_on_update_general db today ws (some s) (some c) (some v)
         = .ok db)
    ∧ (s.unchanged ≠ [] →
       except_is_ok (alter_histogram_on_update_general db today ws
         (some s) (some c) (some v)) = true)
    ∧ (∀ medium high critical confirmed,
       create_or_update_histogram db today none medium high critical confirmed
         = db) := by
  refine ⟨?_, ?_, ?_, fun medium high critical confirmed => rfl⟩
  · intro sh ch svh hb
    simp [alter_histogram_on_update_general, hb]
  · intro h1 h2
    have hcc : confirmed_counters c = none := by
      rcases h2 with h2 | h2
      · simp [confirmed_counters, h1, h2]
      · cases hd : c.deleted <;> simp [confirmed_counters, h1, h2, hd]
    by_cases hb : (histFalsy (some s) || histFalsy (some c) || histFalsy (some v))
        = true
    · simp [alter_histogram_on_update_general, hb]
    · simp [alter_histogram_on_update_general, hb, hcc]
  · intro hsne
    by_cases hb : (histFalsy (some s) || histFalsy (some c) || histFalsy (some v))
        = true
    · simp [alter_histogram_on_update_general, hb, except_is_ok]
    · cases hsu : s.unchanged with
      | nil => exact absurd hsu hsne
      | cons su rest =>
        cases hcc : confirmed_counters c with
        | none => simp [alter_histogram_on_update_general, hb, hcc, except_is_ok]
        | some t =>
          obtain ⟨a, b, c2⟩ := t
          simp [alter_histogram_on_update_general, hb, hcc, hsu, except_is_ok]

/-- Witness for C7: an update whose confirmed history changed but has no
added value (unchanged empty, deleted [true], added []) is a logged
no-op. -/
theorem C7_amended_witness :
    (⟨[], [], [true]⟩ : AttrHist Bool).unchanged = []
    ∧ alter_histogram_on_update_general ⟨[], 0⟩ 3 (some 4)
        (some ⟨[], [STATUS_OPEN], []⟩) (some ⟨[], [], [true]⟩)
        (some ⟨[], [SEVERITY_MEDIUM], []⟩)
      = .ok ⟨[], 0⟩ :=
  ⟨rfl,
   (C7_amended ⟨[], 0⟩ 3 (some 4) ⟨[], [STATUS_OPEN], []⟩ ⟨[], [], [true]⟩
     ⟨[], [SEVERITY_MEDIUM], []⟩).2.1 rfl (Or.inr rfl)⟩

end Faraday
